import Mathlib

/-!
Verification of the phone-number OSINT risk-analysis core.

Shallow embedding of `backend/app/services/risk_scorer.py`,
`backend/app/services/phone_analyzer.py`, the relevant provider payload
shapes from `backend/app/services/osint_modules_real.py`, and the
freshness-cache logic of `backend/app/routes/analysis.py`.

Python dictionaries with optional keys are embedded as structures with
`Option` fields (`none` = key absent / value `None`); `dict.get(k, d)`
becomes `Option.getD`; Python floats are idealized as exact rationals;
Python `round(x, 2)` (banker's rounding) becomes `round2`; a pipeline
step's `try/except` body is driven by an `Except String` provider
response in an environment record.
-/

/-- Python `round` to an integer: round half to even (banker's rounding).
Written with the executable `Rat.floor` so concrete inputs evaluate. -/
def roundHalfEven (q : ℚ) : ℤ :=
  if q - Rat.floor q < 1/2 then Rat.floor q
  else if 1/2 < q - Rat.floor q then Rat.floor q + 1
  else if Rat.floor q % 2 = 0 then Rat.floor q
  else Rat.floor q + 1

/-- Python `round(x, 2)`: round to 2 decimal places, half to even. -/
def round2 (q : ℚ) : ℚ := (roundHalfEven (q * 100) : ℚ) / 100

lemma ratFloor_eq_floor (q : ℚ) : Rat.floor q = ⌊q⌋ :=
  (Rat.floor_def' q).trans Rat.floor_def.symm

lemma roundHalfEven_eq_floor_or (q : ℚ) :
    roundHalfEven q = ⌊q⌋ ∨ roundHalfEven q = ⌊q⌋ + 1 := by
  unfold roundHalfEven
  simp only [ratFloor_eq_floor]
  split_ifs <;> simp

lemma roundHalfEven_nonneg (q : ℚ) (h : 0 ≤ q) : 0 ≤ roundHalfEven q := by
  have hfl : (0 : ℤ) ≤ ⌊q⌋ := Int.le_floor.mpr (by exact_mod_cast h)
  rcases roundHalfEven_eq_floor_or q with h' | h' <;> omega

lemma roundHalfEven_le (q : ℚ) (n : ℤ) (h : q ≤ (n : ℚ)) :
    roundHalfEven q ≤ n := by
  have hfl : ⌊q⌋ ≤ n := by
    have h' := Int.floor_le_floor (α := ℚ) h
    simpa using h'
  have hq : (⌊q⌋ : ℚ) ≤ q := Int.floor_le q
  unfold roundHalfEven
  simp only [ratFloor_eq_floor]
  split_ifs with h1 h2 h3
  · exact hfl
  · have h1' : (1 : ℚ)/2 ≤ q - ⌊q⌋ := not_lt.mp h1
    by_contra hc
    have hn : ⌊q⌋ = n := by omega
    have hcast : ((⌊q⌋ : ℤ) : ℚ) = (n : ℚ) := by exact_mod_cast hn
    linarith
  · exact hfl
  · have h1' : (1 : ℚ)/2 ≤ q - ⌊q⌋ := not_lt.mp h1
    by_contra hc
    have hn : ⌊q⌋ = n := by omega
    have hcast : ((⌊q⌋ : ℤ) : ℚ) = (n : ℚ) := by exact_mod_cast hn
    linarith

lemma round2_nonneg (q : ℚ) (h : 0 ≤ q) : 0 ≤ round2 q := by
  unfold round2
  have hn : (0 : ℤ) ≤ roundHalfEven (q * 100) :=
    roundHalfEven_nonneg _ (by linarith)
  have : (0 : ℚ) ≤ (roundHalfEven (q * 100) : ℚ) := by exact_mod_cast hn
  linarith

lemma round2_le_100 (q : ℚ) (h : q ≤ 100) : round2 q ≤ 100 := by
  unfold round2
  have hl : roundHalfEven (q * 100) ≤ (10000 : ℤ) :=
    roundHalfEven_le _ 10000 (by push_cast; linarith)
  have h' : (roundHalfEven (q * 100) : ℚ) ≤ 10000 := by exact_mod_cast hl
  linarith

/-! ## Provider payload shapes (`osint_modules_real.py`) -/

/-- One social-media account record from the social-media scan payload.
The scorer only reads the `account_age_days` key (which may be absent). -/
structure SocialAccount where
  account_age_days : Option ℚ := none
deriving DecidableEq

/-- Payload of `SocialMediaScanner.scan` as consumed by the analyzer and
scorer (`platforms_checked` / `warning` keys are never read). -/
structure SocialResults where
  anomaly_detected : Option Bool := none
  anomaly_description : Option String := none
  severity : Option String := none
  accounts_found : Option (List SocialAccount) := none
deriving DecidableEq

/-- Payload of `SpamDatabaseChecker.check` as consumed by the analyzer.
Detail records are modelled as opaque strings (never inspected). -/
structure SpamResults where
  total_reports : Option ℤ := none
  details : Option (List String) := none
  sources : Option (List String) := none
deriving DecidableEq

/-- Payload of `FraudForumScanner.scan` as consumed by the analyzer.
Mention records are modelled as opaque strings (never inspected). -/
structure FraudResults where
  mentions_count : Option ℤ := none
  mentions : Option (List String) := none
deriving DecidableEq

/-- Payload of `TelegramScanner.scan` as consumed by the analyzer. -/
structure TelegramResults where
  has_telegram_account : Option Bool := none
  suspicious_groups : Option (List String) := none
deriving DecidableEq

/-- Payload of `WhatsAppChecker.check` as consumed by the analyzer. -/
structure WhatsAppResults where
  has_whatsapp : Option Bool := none
  business_account : Option Bool := none
deriving DecidableEq

/-- Payload of `IPQualityScoreChecker.check_fraud` as consumed by
`PhoneAnalyzer._get_rich_metadata` (dict with possibly-absent keys). -/
structure IpqsData where
  fraud_score : Option ℚ := none
  recent_abuse : Option Bool := none
  VOIP : Option Bool := none
  prepaid : Option Bool := none
  risky : Option Bool := none
  active : Option Bool := none
  carrier : Option String := none
  line_type : Option String := none
  country : Option String := none
  city : Option String := none
  region : Option String := none
  spam_score : Option ℚ := none
  do_not_call : Option Bool := none
  error : Option String := none
deriving DecidableEq

/-- Payload of `NumverifyValidator.validate` as consumed by
`PhoneAnalyzer._get_rich_metadata`. -/
structure NumverifyData where
  valid : Option Bool := none
  carrier : Option String := none
  line_type : Option String := none
  country_name : Option String := none
  location : Option String := none
  error : Option String := none
deriving DecidableEq

/-! ## Rich metadata and risk-factor records (`phone_analyzer.py`) -/

/-- `rich_metadata['carrier_details']`. Porting history entries are
(carrier, status) pairs. -/
structure CarrierDetails where
  current_carrier : String
  original_carrier : String
  porting_detected : Bool
  line_type : String
  is_voip : Bool
  is_prepaid : Option Bool
  porting_history : Option (List (String × String)) := none
deriving DecidableEq

/-- `rich_metadata['geographic_data']`. -/
structure GeographicData where
  country : String
  country_name : String
  city : Option String
  region : String
  location_formatted : String
  timezone : String
  all_timezones : List String
deriving DecidableEq

/-- `rich_metadata['number_status']`. -/
structure NumberStatus where
  active : Bool
  valid : Bool
  risky : Bool
  do_not_call : Bool
deriving DecidableEq

/-- `rich_metadata['reputation_indicators']`. -/
structure ReputationIndicators where
  fraud_score : ℚ
  spam_score : ℚ
  recent_abuse : Bool
  leak_detected : Bool
deriving DecidableEq

/-- The `rich_metadata` composite built by `_get_rich_metadata`. -/
structure RichMetadata where
  carrier_details : CarrierDetails
  geographic_data : GeographicData
  number_status : NumberStatus
  reputation_indicators : ReputationIndicators
  estimated_age : String
deriving DecidableEq

/-- Evidence snapshot attached to a risk factor (an opaque payload copy
in the source; one constructor per shape actually attached). -/
inductive Evidence where
  | isVoipTrue : Evidence
  | portingHistory : List (String × String) → Evidence
  | doNotCallTrue : Evidence
  | social : SocialResults → Evidence
  | spam : SpamResults → Evidence
  | fraud : FraudResults → Evidence
  | telegram : TelegramResults → Evidence
deriving DecidableEq

/-- A risk-factor dict appended by the analyzer and read back with
`dict.get` by the scorer; every field is optional to model dict access. -/
structure Factor where
  category : Option String := none
  factor_type : Option String := none
  severity : Option String := none
  weight : Option ℚ := none
  description : Option String := none
  evidence : Option Evidence := none
  source : Option String := none
  score_contribution : Option ℚ := none
deriving DecidableEq

/-- The analyzer's working `self.results` dict: keys written by the
pipeline steps; optional keys are absent until their step succeeds. -/
structure Results where
  phone_number : String
  data_sources_used : List String := []
  risk_factors : List Factor := []
  country_code : Option String := none
  carrier : Option String := none
  line_type : Option ℤ := none
  location : Option String := none
  timezones : Option (List String) := none
  basic_info_error : Option String := none
  rich_metadata : Option RichMetadata := none
  rich_metadata_error : Option String := none
  social_media_presence : Option SocialResults := none
  social_media_error : Option String := none
  spam_reports_count : Option ℤ := none
  spam_details : Option (List String) := none
  spam_check_error : Option String := none
  fraud_mentions_count : Option ℤ := none
  fraud_details : Option (List String) := none
  fraud_scan_error : Option String := none
  telegram_presence : Option TelegramResults := none
  whatsapp_presence : Option WhatsAppResults := none
  messaging_apps_error : Option String := none
  risk_score : Option ℚ := none
  risk_level : Option String := none
deriving DecidableEq

/-! ## Risk scorer (`risk_scorer.py`) -/

/-- The fixed category weight dict `RiskScorer.weights`. -/
def RiskScorer.weight (category : String) : ℚ :=
  if category = "social_media_anomalies" then 30/100
  else if category = "spam_reports" then 25/100
  else if category = "fraud_forum_mentions" then 25/100
  else if category = "account_age" then 10/100
  else if category = "geographic_anomalies" then 10/100
  else 0

/-- `self.results.get('social_media_presence', {}).get('accounts_found', [])`. -/
def RiskScorer.socialAccountsOf (r : Results) : List SocialAccount :=
  match r.social_media_presence with
  | some s => s.accounts_found.getD []
  | none => []

/-- Truthiness of `self.results.get('social_media_presence', {}).get('anomaly_detected')`. -/
def RiskScorer.anomalyDetectedOf (r : Results) : Bool :=
  match r.social_media_presence with
  | some s => s.anomaly_detected.getD false
  | none => false

/-- `RiskScorer._calculate_social_media_score`. -/
def RiskScorer.calculateSocialMediaScore (r : Results) : ℚ :=
  let score : ℚ :=
    if RiskScorer.anomalyDetectedOf r then
      let accounts_found := (RiskScorer.socialAccountsOf r).length
      let recent_accounts := (RiskScorer.socialAccountsOf r).filter
        (fun acc => decide (acc.account_age_days.getD 999 < 30))
      (if recent_accounts.length ≥ 3 then (80 : ℚ)
       else if recent_accounts.length ≥ 2 then 60
       else if recent_accounts.length = 1 then 30
       else 0)
      + (if accounts_found = 0 then 20 else 0)
      + (if accounts_found > 5 then 40 else 0)
    else 0
  min 100 score

/-- `RiskScorer._calculate_spam_score`. -/
def RiskScorer.calculateSpamScore (r : Results) : ℚ :=
  let spam_count := r.spam_reports_count.getD 0
  if spam_count = 0 then 0
  else if spam_count ≤ 3 then 30
  else if spam_count ≤ 10 then 60
  else if spam_count ≤ 20 then 85
  else 100

/-- `RiskScorer._calculate_fraud_score`. -/
def RiskScorer.calculateFraudScore (r : Results) : ℚ :=
  let fraud_count := r.fraud_mentions_count.getD 0
  if fraud_count = 0 then 0
  else if fraud_count = 1 then 50
  else if fraud_count ≤ 3 then 80
  else 100

/-- `RiskScorer._calculate_account_age_score`. -/
def RiskScorer.calculateAccountAgeScore (r : Results) : ℚ :=
  let accounts := RiskScorer.socialAccountsOf r
  if accounts.isEmpty then 30
  else
    let ages := accounts.map (fun acc => acc.account_age_days.getD 0)
    let avg_age : ℚ := if ages.isEmpty then 0 else ages.sum / (ages.length : ℚ)
    if avg_age < 7 then 90
    else if avg_age < 30 then 70
    else if avg_age < 90 then 40
    else if avg_age < 180 then 20
    else 0

/-- `RiskScorer._calculate_geographic_score`. -/
def RiskScorer.calculateGeographicScore (r : Results) : ℚ :=
  let location := r.location.getD "Unknown"
  if location = "Unknown" then 20 else 0

/-- `RiskScorer._determine_risk_level`. -/
def RiskScorer.determineRiskLevel (score : ℚ) : String :=
  if score ≥ 70 then "HIGH"
  else if score ≥ 40 then "MEDIUM"
  else if score ≥ 20 then "LOW"
  else "MINIMAL"

/-- `RiskScorer.calculate`: weighted composite, clamped to [0, 100];
returns `(round(total, 2), level(total))`. -/
def RiskScorer.calculate (r : Results) : ℚ × String :=
  let social_score := RiskScorer.calculateSocialMediaScore r
  let spam_score := RiskScorer.calculateSpamScore r
  let fraud_score := RiskScorer.calculateFraudScore r
  let age_score := RiskScorer.calculateAccountAgeScore r
  let geo_score := RiskScorer.calculateGeographicScore r
  let total_score :=
    social_score * RiskScorer.weight "social_media_anomalies"
    + spam_score * RiskScorer.weight "spam_reports"
    + fraud_score * RiskScorer.weight "fraud_forum_mentions"
    + age_score * RiskScorer.weight "account_age"
    + geo_score * RiskScorer.weight "geographic_anomalies"
  let clamped := min (100 : ℚ) (max 0 total_score)
  (round2 clamped, RiskScorer.determineRiskLevel clamped)

/-- The `severity_scores` lookup in `get_factor_contribution`
(`dict.get(severity, 50)`). -/
def RiskScorer.severityScores (severity : String) : ℚ :=
  if severity = "CRITICAL" then 100
  else if severity = "HIGH" then 80
  else if severity = "MEDIUM" then 50
  else if severity = "LOW" then 25
  else 50

/-- `RiskScorer.get_factor_contribution`; takes the scorer's results dict
(the method's `self`) although the computation never reads it.  The
source also reads `factor['category']` but does not use it. -/
def RiskScorer.getFactorContribution (_results : Results) (factor : Factor) : ℚ :=
  let weight := factor.weight.getD 1
  let severity := factor.severity.getD "MEDIUM"
  let base_score := RiskScorer.severityScores severity
  round2 (base_score * weight)

/-- Order of the four risk levels actually produced, for the
monotonicity statement (any other string ranks above all of them). -/
def RiskScorer.levelRank (level : String) : ℕ :=
  if level = "MINIMAL" then 0
  else if level = "LOW" then 1
  else if level = "MEDIUM" then 2
  else if level = "HIGH" then 3
  else 4

/-! ## Analyzer pipeline (`phone_analyzer.py`) -/

/-- Outputs of the external `phonenumbers` library for a successfully
parsed number (step 1 derives all its fields from these). -/
structure ParsedNumber where
  country_code : ℤ
  carrier : String
  line_type : ℤ
  location : String
  timezones : List String
deriving DecidableEq

/-- The provider environment for one analysis run: each pipeline step's
external calls either produce a payload or raise (`Except.error` is the
exception message caught by that step's `try/except`). -/
structure Env where
  basic : Except String ParsedNumber
  ipqs : Except String IpqsData
  numverify : Except String NumverifyData
  social : Except String SocialResults
  spam : Except String SpamResults
  fraud : Except String FraudResults
  telegram : Except String TelegramResults
  whatsapp : Except String WhatsAppResults

/-- Python `x or y` on an optional string (`None` and `''` are falsy). -/
def pyOrStr (x : Option String) (y : String) : String :=
  match x with
  | some c => if c = "" then y else c
  | none => y

/-- Whether `pat` occurs as a contiguous run inside the character list. -/
def charsHaveSub (pat : List Char) : List Char → Bool
  | [] => pat.isEmpty
  | c :: rest => pat.isPrefixOf (c :: rest) || charsHaveSub pat rest

/-- Python `pat in s` substring containment. -/
def strContainsSub (s pat : String) : Bool := charsHaveSub pat.toList s.toList

/-- `PhoneAnalyzer._get_basic_info`. -/
def PhoneAnalyzer.getBasicInfo (env : Env) (r : Results) : Results :=
  match env.basic with
  | .ok parsed =>
    { r with
      country_code := some ("+" ++ toString parsed.country_code),
      carrier := some (if parsed.carrier = "" then "Unknown" else parsed.carrier),
      line_type := some parsed.line_type,
      location := some (if parsed.location = "" then "Unknown" else parsed.location),
      timezones := some parsed.timezones,
      data_sources_used := r.data_sources_used ++ ["phonenumbers_library"] }
  | .error e => { r with basic_info_error := some e }

/-- The VOIP risk-factor dict appended in `_get_rich_metadata`. -/
def PhoneAnalyzer.voipFactor : Factor :=
  { category := some "carrier", factor_type := some "voip_number",
    severity := some "MEDIUM", weight := some (15/100),
    description := some "VOIP numbers are commonly used in fraud schemes",
    evidence := some .isVoipTrue, source := some "Carrier Analysis" }

/-- The porting-detected risk-factor dict appended in `_get_rich_metadata`. -/
def PhoneAnalyzer.portingFactor (history : List (String × String)) : Factor :=
  { category := some "carrier", factor_type := some "porting_detected",
    severity := some "LOW", weight := some (10/100),
    description := some "Number has been ported between carriers",
    evidence := some (.portingHistory history), source := some "Carrier Analysis" }

/-- The do-not-call risk-factor dict appended in `_get_rich_metadata`. -/
def PhoneAnalyzer.dncFactor : Factor :=
  { category := some "compliance", factor_type := some "do_not_call_registry",
    severity := some "LOW", weight := some (5/100),
    description := some "Number is on Do Not Call registry",
    evidence := some .doNotCallTrue, source := some "Compliance Check" }

/-- `PhoneAnalyzer._get_rich_metadata`: calls the fraud-score provider
then the validity provider; an exception from either is caught and
recorded as `rich_metadata_error`; otherwise the two payloads are merged
and carrier/compliance risk factors derived. -/
def PhoneAnalyzer.getRichMetadata (env : Env) (r : Results) : Results :=
  match env.ipqs with
  | .error e => { r with rich_metadata_error := some e }
  | .ok ipqs_data =>
    match env.numverify with
    | .error e => { r with rich_metadata_error := some e }
    | .ok numverify_data =>
      let line_type_value := (ipqs_data.line_type.getD "").toLower
      let prepaid_unknown : Bool :=
        ipqs_data.prepaid.isNone
        || (decide (ipqs_data.prepaid = some false)
            && ["IN", "PH", "ID", "BD"].contains (ipqs_data.country.getD ""))
      let mobile_like : Bool :=
        strContainsSub line_type_value "mobile"
        || strContainsSub line_type_value "wireless"
      let is_prepaid : Option Bool :=
        if prepaid_unknown && mobile_like then none else ipqs_data.prepaid
      let current_carrier :=
        pyOrStr ipqs_data.carrier (numverify_data.carrier.getD "Unknown")
      let original_carrier := numverify_data.carrier.getD "Unknown"
      let merged_line_type :=
        pyOrStr ipqs_data.line_type (numverify_data.line_type.getD "Unknown")
      let porting_detected : Bool :=
        decide (current_carrier ≠ "Unknown" ∧ original_carrier ≠ "Unknown"
                ∧ current_carrier ≠ original_carrier)
      let porting_history : Option (List (String × String)) :=
        if porting_detected then
          some [(original_carrier, "Original"), (current_carrier, "Current")]
        else none
      let carrier_details : CarrierDetails :=
        { current_carrier := current_carrier,
          original_carrier := original_carrier,
          porting_detected := porting_detected,
          line_type := merged_line_type,
          is_voip := ipqs_data.VOIP.getD false,
          is_prepaid := is_prepaid,
          porting_history := porting_history }
      let geographic_data : GeographicData :=
        { country := ipqs_data.country.getD "",
          country_name := numverify_data.country_name.getD "",
          city := if ipqs_data.city ≠ some "N/A" then ipqs_data.city
                  else some (numverify_data.location.getD "Unknown"),
          region := ipqs_data.region.getD "Unknown",
          location_formatted := numverify_data.location.getD "",
          timezone := match r.timezones.getD [] with
                      | [] => "Unknown"
                      | t :: _ => t,
          all_timezones := r.timezones.getD [] }
      let number_status : NumberStatus :=
        { active := ipqs_data.active.getD true,
          valid := numverify_data.valid.getD false,
          risky := ipqs_data.risky.getD false,
          do_not_call := ipqs_data.do_not_call.getD false }
      let reputation : ReputationIndicators :=
        { fraud_score := ipqs_data.fraud_score.getD 0,
          spam_score := ipqs_data.spam_score.getD 0,
          recent_abuse := ipqs_data.recent_abuse.getD false,
          leak_detected := false }
      let estimated_age :=
        if ipqs_data.active.getD false then
          if ipqs_data.VOIP.getD false then
            "Recent (VOIP numbers are typically newer)"
          else if ipqs_data.prepaid.getD false then
            "Variable (Prepaid numbers can be recycled)"
          else "Established (Active traditional line)"
        else "Unknown or Inactive"
      let rich_metadata : RichMetadata :=
        { carrier_details := carrier_details,
          geographic_data := geographic_data,
          number_status := number_status,
          reputation_indicators := reputation,
          estimated_age := estimated_age }
      let new_factors :=
        (if carrier_details.is_voip then [PhoneAnalyzer.voipFactor] else [])
        ++ (if carrier_details.porting_detected then
              [PhoneAnalyzer.portingFactor (carrier_details.porting_history.getD [])]
            else [])
        ++ (if number_status.do_not_call then [PhoneAnalyzer.dncFactor] else [])
      { r with
        rich_metadata := some rich_metadata,
        data_sources_used := r.data_sources_used ++ ["IPQualityScore", "Numverify"],
        risk_factors := r.risk_factors ++ new_factors }

/-- `PhoneAnalyzer._check_social_media`. -/
def PhoneAnalyzer.checkSocialMedia (env : Env) (r : Results) : Results :=
  match env.social with
  | .error e => { r with social_media_error := some e }
  | .ok social_results =>
    { r with
      social_media_presence := some social_results,
      data_sources_used := r.data_sources_used ++ ["social_media_scan"],
      risk_factors := r.risk_factors ++
        (if social_results.anomaly_detected.getD false then
          [{ category := some "social_media",
             factor_type := some "suspicious_activity",
             severity := some (social_results.severity.getD "MEDIUM"),
             weight := some (30/100),
             description := social_results.anomaly_description,
             evidence := some (.social social_results),
             source := some "Social Media Scan" }]
         else []) }

/-- `PhoneAnalyzer._check_spam_databases`. -/
def PhoneAnalyzer.checkSpamDatabases (env : Env) (r : Results) : Results :=
  match env.spam with
  | .error e => { r with spam_check_error := some e }
  | .ok spam_results =>
    let total := spam_results.total_reports.getD 0
    { r with
      spam_reports_count := some total,
      spam_details := some (spam_results.details.getD []),
      data_sources_used := r.data_sources_used ++ spam_results.sources.getD [],
      risk_factors := r.risk_factors ++
        (if total > 0 then
          [{ category := some "spam_reports",
             factor_type := some "reported_spam",
             severity := some (if total > 10 then "HIGH" else "MEDIUM"),
             weight := some (25/100),
             description := some ("Number reported " ++ toString total
               ++ " times in spam databases"),
             evidence := some (.spam spam_results),
             source := some "Spam Databases" }]
         else []) }

/-- `PhoneAnalyzer._check_fraud_forums`. -/
def PhoneAnalyzer.checkFraudForums (env : Env) (r : Results) : Results :=
  match env.fraud with
  | .error e => { r with fraud_scan_error := some e }
  | .ok fraud_results =>
    let count := fraud_results.mentions_count.getD 0
    { r with
      fraud_mentions_count := some count,
      fraud_details := some (fraud_results.mentions.getD []),
      data_sources_used := r.data_sources_used ++ ["fraud_forum_scan"],
      risk_factors := r.risk_factors ++
        (if count > 0 then
          [{ category := some "fraud_forum",
             factor_type := some "fraud_mention",
             severity := some "HIGH",
             weight := some (25/100),
             description := some ("Number mentioned in " ++ toString count
               ++ " fraud-related discussions"),
             evidence := some (.fraud fraud_results),
             source := some "Fraud Forums" }]
         else []) }

/-- `PhoneAnalyzer._check_messaging_apps` (the telegram presence is
stored before the whatsapp call, so it survives a whatsapp exception). -/
def PhoneAnalyzer.checkMessagingApps (env : Env) (r : Results) : Results :=
  match env.telegram with
  | .error e => { r with messaging_apps_error := some e }
  | .ok telegram_results =>
    match env.whatsapp with
    | .error e =>
      { r with telegram_presence := some telegram_results,
               messaging_apps_error := some e }
    | .ok whatsapp_results =>
      { r with
        telegram_presence := some telegram_results,
        whatsapp_presence := some whatsapp_results,
        data_sources_used := r.data_sources_used ++ ["telegram_scan", "whatsapp_check"],
        risk_factors := r.risk_factors ++
          (if (telegram_results.suspicious_groups.getD []) ≠ [] then
            [{ category := some "messaging_apps",
               factor_type := some "suspicious_telegram_activity",
               severity := some "MEDIUM",
               weight := some (10/100),
               description := some ("Found in "
                 ++ toString (telegram_results.suspicious_groups.getD []).length
                 ++ " suspicious Telegram groups"),
               evidence := some (.telegram telegram_results),
               source := some "Telegram" }]
           else []) }

/-- `PhoneAnalyzer._calculate_risk`: run the scorer and stamp each risk
factor with its contribution. -/
def PhoneAnalyzer.calculateRisk (r : Results) : Results :=
  let scored := RiskScorer.calculate r
  { r with
    risk_score := some scored.1,
    risk_level := some scored.2,
    risk_factors := r.risk_factors.map
      (fun factor =>
        { factor with
          score_contribution := some (RiskScorer.getFactorContribution r factor) }) }

/-- The analyzer's initial `self.results` dict. -/
def PhoneAnalyzer.initResults (phone_number : String) : Results :=
  { phone_number := phone_number, data_sources_used := [], risk_factors := [] }

/-- `PhoneAnalyzer.analyze`: the fixed seven-step sequential pipeline. -/
def PhoneAnalyzer.analyze (env : Env) (phone_number : String) : Results :=
  PhoneAnalyzer.calculateRisk
    (PhoneAnalyzer.checkMessagingApps env
      (PhoneAnalyzer.checkFraudForums env
        (PhoneAnalyzer.checkSpamDatabases env
          (PhoneAnalyzer.checkSocialMedia env
            (PhoneAnalyzer.getRichMetadata env
              (PhoneAnalyzer.getBasicInfo env
                (PhoneAnalyzer.initResults phone_number)))))))

/-! ## Concrete provider payloads (`osint_modules_real.py`) -/

/-- `NumverifyValidator.validate` when `NUMVERIFY_API_KEY` is not
configured: an error payload carrying no phone evidence at all. -/
def NumverifyValidator.noKeyPayload : NumverifyData :=
  { valid := some false, error := some "NUMVERIFY_API_KEY not configured" }

/-- The success branch of `NumverifyValidator.validate` returns a
payload with `valid = True`; every failure branch returns only
`valid = False` plus an error message.  A payload carries at least
partially usable evidence exactly in the first case. -/
def NumverifyData.returnedUsableEvidence (n : NumverifyData) : Prop :=
  n.valid = some true

/-- `IPQualityScoreChecker.check_fraud` when `IPQUALITYSCORE_API_KEY` is
not configured. -/
def IPQualityScoreChecker.noKeyPayload : IpqsData :=
  { error := some "IPQUALITYSCORE_API_KEY not configured", fraud_score := some 0 }

/-- `SocialMediaScanner.scan` (always returns this fixed payload). -/
def SocialMediaScanner.scanResult : SocialResults :=
  { anomaly_detected := some false, anomaly_description := none,
    accounts_found := some [] }

/-- `SpamDatabaseChecker.check` when no spam data source is available. -/
def SpamDatabaseChecker.noKeyResult : SpamResults :=
  { total_reports := some 0, details := some [], sources := some [] }

/-- `FraudForumScanner.scan` when no fraud data source reports. -/
def FraudForumScanner.noKeyResult : FraudResults :=
  { mentions_count := some 0, mentions := some [] }

/-- `TelegramScanner.scan` (always returns this fixed payload; no
`suspicious_groups` key). -/
def TelegramScanner.scanResult : TelegramResults :=
  { has_telegram_account := some false, suspicious_groups := none }

/-- `WhatsAppChecker.check` (always returns this fixed payload). -/
def WhatsAppChecker.checkResult : WhatsAppResults :=
  { has_whatsapp := some false, business_account := some false }

/-! ## The analyze route (`routes/analysis.py`) -/

/-- One stored `PhoneAnalysis` row, with its analysis timestamp in hours
and the analysis content it captured. -/
structure StoredAnalysis where
  phone_number : String
  analysis_date : ℚ
  analysis : Results
deriving DecidableEq

/-- Outcome of the `/api/analyze` route: a 400 validation rejection, a
200 reply serving a cached row, or a 201 reply with a fresh run. -/
inductive AnalyzeResponse where
  | invalid : String → AnalyzeResponse
  | cached : StoredAnalysis → AnalyzeResponse
  | fresh : Results → AnalyzeResponse
deriving DecidableEq

/-- The recent-analysis query filter in `analyze_phone`: same phone
number and an analysis date strictly newer than 24 hours before now. -/
def recentFilter (phone_number : String) (now : ℚ) (a : StoredAnalysis) : Bool :=
  a.phone_number == phone_number && decide (now - 24 < a.analysis_date)

/-- `analyze_phone` (`routes/analysis.py`): validate, then check the
24-hour freshness cache, else run the pipeline.  `validation` is the
outcome of `validate_phone_number` (`none` = valid); `db` holds the
stored rows in query order. -/
def analyzePhone (validation : Option String) (db : List StoredAnalysis)
    (phone_number : String) (deep_scan : Bool) (now : ℚ) (env : Env) :
    AnalyzeResponse :=
  match validation with
  | some err => .invalid err
  | none =>
    match db.find? (recentFilter phone_number now) with
    | some recent_analysis =>
      if !deep_scan then .cached recent_analysis
      else .fresh (PhoneAnalyzer.analyze env phone_number)
    | none => .fresh (PhoneAnalyzer.analyze env phone_number)
lemma RiskScorer.weight_social_eq :
    RiskScorer.weight "social_media_anomalies" = 30/100 := by
  unfold RiskScorer.weight
  rw [if_pos rfl]

lemma RiskScorer.weight_spam_eq : RiskScorer.weight "spam_reports" = 25/100 := by
  unfold RiskScorer.weight
  rw [if_neg (by decide), if_pos rfl]

lemma RiskScorer.weight_fraud_eq :
    RiskScorer.weight "fraud_forum_mentions" = 25/100 := by
  unfold RiskScorer.weight
  rw [if_neg (by decide), if_neg (by decide), if_pos rfl]

lemma RiskScorer.weight_age_eq : RiskScorer.weight "account_age" = 10/100 := by
  unfold RiskScorer.weight
  rw [if_neg (by decide), if_neg (by decide), if_neg (by decide), if_pos rfl]

lemma RiskScorer.weight_geo_eq :
    RiskScorer.weight "geographic_anomalies" = 10/100 := by
  unfold RiskScorer.weight
  rw [if_neg (by decide), if_neg (by decide), if_neg (by decide),
    if_neg (by decide), if_pos rfl]

lemma RiskScorer.severity_CRITICAL_eq :
    RiskScorer.severityScores "CRITICAL" = 100 := by
  unfold RiskScorer.severityScores
  rw [if_pos rfl]

lemma RiskScorer.severity_HIGH_eq : RiskScorer.severityScores "HIGH" = 80 := by
  unfold RiskScorer.severityScores
  rw [if_neg (by decide), if_pos rfl]

lemma RiskScorer.severity_MEDIUM_eq : RiskScorer.severityScores "MEDIUM" = 50 := by
  unfold RiskScorer.severityScores
  rw [if_neg (by decide), if_neg (by decide), if_pos rfl]

lemma RiskScorer.severity_LOW_eq : RiskScorer.severityScores "LOW" = 25 := by
  unfold RiskScorer.severityScores
  rw [if_neg (by decide), if_neg (by decide), if_neg (by decide), if_pos rfl]

/-- C1: for every working result, the composite risk score returned by
`RiskScorer.calculate` is the sum over the five categories of the category
sub-score times its fixed weight (0.30, 0.25, 0.25, 0.10, 0.10, summing
to 1), clamped to [0, 100] and rounded to 2 decimal places; in particular
the returned risk score always lies in [0, 100]. -/
theorem composite_score_spec (r : Results) :
    (RiskScorer.calculate r).1
      = round2 (min 100 (max 0
          (RiskScorer.calculateSocialMediaScore r * RiskScorer.weight "social_media_anomalies"
           + RiskScorer.calculateSpamScore r * RiskScorer.weight "spam_reports"
           + RiskScorer.calculateFraudScore r * RiskScorer.weight "fraud_forum_mentions"
           + RiskScorer.calculateAccountAgeScore r * RiskScorer.weight "account_age"
           + RiskScorer.calculateGeographicScore r * RiskScorer.weight "geographic_anomalies")))
    ∧ RiskScorer.weight "social_media_anomalies" = 30/100
    ∧ RiskScorer.weight "spam_reports" = 25/100
    ∧ RiskScorer.weight "fraud_forum_mentions" = 25/100
    ∧ RiskScorer.weight "account_age" = 10/100
    ∧ RiskScorer.weight "geographic_anomalies" = 10/100
    ∧ RiskScorer.weight "social_media_anomalies" + RiskScorer.weight "spam_reports"
      + RiskScorer.weight "fraud_forum_mentions" + RiskScorer.weight "account_age"
      + RiskScorer.weight "geographic_anomalies" = 1
    ∧ 0 ≤ (RiskScorer.calculate r).1 ∧ (RiskScorer.calculate r).1 ≤ 100 := by
  have hcalc : (RiskScorer.calculate r).1
      = round2 (min 100 (max 0
          (RiskScorer.calculateSocialMediaScore r * RiskScorer.weight "social_media_anomalies"
           + RiskScorer.calculateSpamScore r * RiskScorer.weight "spam_reports"
           + RiskScorer.calculateFraudScore r * RiskScorer.weight "fraud_forum_mentions"
           + RiskScorer.calculateAccountAgeScore r * RiskScorer.weight "account_age"
           + RiskScorer.calculateGeographicScore r * RiskScorer.weight "geographic_anomalies"))) := rfl
  refine ⟨hcalc, RiskScorer.weight_social_eq, RiskScorer.weight_spam_eq,
    RiskScorer.weight_fraud_eq, RiskScorer.weight_age_eq, RiskScorer.weight_geo_eq,
    ?_, ?_, ?_⟩
  · rw [RiskScorer.weight_social_eq, RiskScorer.weight_spam_eq,
      RiskScorer.weight_fraud_eq, RiskScorer.weight_age_eq, RiskScorer.weight_geo_eq]
    norm_num
  · rw [hcalc]
    exact round2_nonneg _ (le_min (by norm_num) (le_max_left 0 _))
  · rw [hcalc]
    exact round2_le_100 _ (min_le_left _ _)

/-- C2: the risk level is a deterministic, monotonic function of the
composite score with boundary-inclusive thresholds: 70 gives HIGH,
[40, 70) gives MEDIUM, [20, 40) gives LOW, below 20 gives MINIMAL, and
CRITICAL is never returned. -/
theorem risk_level_thresholds (s : ℚ) :
    ((70 ≤ s) ↔ RiskScorer.determineRiskLevel s = "HIGH")
    ∧ ((40 ≤ s ∧ s < 70) ↔ RiskScorer.determineRiskLevel s = "MEDIUM")
    ∧ ((20 ≤ s ∧ s < 40) ↔ RiskScorer.determineRiskLevel s = "LOW")
    ∧ ((s < 20) ↔ RiskScorer.determineRiskLevel s = "MINIMAL")
    ∧ RiskScorer.determineRiskLevel s ≠ "CRITICAL"
    ∧ (∀ t : ℚ, s ≤ t →
        RiskScorer.levelRank (RiskScorer.determineRiskLevel s)
          ≤ RiskScorer.levelRank (RiskScorer.determineRiskLevel t)) := by
  have hdet : ∀ u : ℚ, RiskScorer.determineRiskLevel u =
      if 70 ≤ u then "HIGH" else if 40 ≤ u then "MEDIUM"
      else if 20 ≤ u then "LOW" else "MINIMAL" := fun _ => rfl
  have hrank : ∀ u : ℚ, RiskScorer.levelRank (RiskScorer.determineRiskLevel u) =
      if 70 ≤ u then 3 else if 40 ≤ u then 2 else if 20 ≤ u then 1 else 0 := by
    intro u
    rw [hdet]
    split_ifs <;> rfl
  refine ⟨?_, ?_, ?_, ?_, ?_, ?_⟩
  · rw [hdet]
    split_ifs with h1 h2 h3
    · exact iff_of_true h1 rfl
    · exact iff_of_false h1 (by decide)
    · exact iff_of_false h1 (by decide)
    · exact iff_of_false h1 (by decide)
  · rw [hdet]
    split_ifs with h1 h2 h3
    · exact iff_of_false (fun h => (not_lt.mpr h1) h.2) (by decide)
    · exact iff_of_true ⟨h2, lt_of_not_le h1⟩ rfl
    · exact iff_of_false (fun h => h2 h.1) (by decide)
    · exact iff_of_false (fun h => h2 h.1) (by decide)
  · rw [hdet]
    split_ifs with h1 h2 h3
    · exact iff_of_false (fun h => (not_lt.mpr (by linarith)) h.2) (by decide)
    · exact iff_of_false (fun h => (not_lt.mpr h2) h.2) (by decide)
    · exact iff_of_true ⟨h3, lt_of_not_le h2⟩ rfl
    · exact iff_of_false (fun h => h3 h.1) (by decide)
  · rw [hdet]
    split_ifs with h1 h2 h3
    · exact iff_of_false (not_lt.mpr (by linarith)) (by decide)
    · exact iff_of_false (not_lt.mpr (by linarith)) (by decide)
    · exact iff_of_false (not_lt.mpr h3) (by decide)
    · exact iff_of_true (lt_of_not_le h3) rfl
  · rw [hdet]
    split_ifs <;> decide
  · intro t ht
    rw [hrank s, hrank t]
    split_ifs <;> first | omega | linarith

/-- Witness for C2: the 70 boundary is HIGH and 69.99 is MEDIUM. -/
theorem risk_level_thresholds_witness :
    RiskScorer.determineRiskLevel 70 = "HIGH"
    ∧ RiskScorer.determineRiskLevel (6999/100) = "MEDIUM" :=
  ⟨(risk_level_thresholds 70).1.mp (by norm_num),
   ((risk_level_thresholds (6999/100)).2.1).mp (by norm_num)⟩

/-- C3: the spam sub-score is a non-decreasing step function of the
report count matching the five documented bands exactly at the
boundaries: 0 gives 0; 1-3 gives 30; 4-10 gives 60; 11-20 gives 85;
above 20 gives 100. -/
theorem spam_score_bands (r r' : Results) (n m : ℤ)
    (hn : r.spam_reports_count = some n) (hm : r'.spam_reports_count = some m)
    (hn0 : 0 ≤ n) :
    (n = 0 → RiskScorer.calculateSpamScore r = 0)
    ∧ (1 ≤ n ∧ n ≤ 3 → RiskScorer.calculateSpamScore r = 30)
    ∧ (4 ≤ n ∧ n ≤ 10 → RiskScorer.calculateSpamScore r = 60)
    ∧ (11 ≤ n ∧ n ≤ 20 → RiskScorer.calculateSpamScore r = 85)
    ∧ (20 < n → RiskScorer.calculateSpamScore r = 100)
    ∧ (n ≤ m → RiskScorer.calculateSpamScore r ≤ RiskScorer.calculateSpamScore r') := by
  have e1 : RiskScorer.calculateSpamScore r =
      if n = 0 then 0 else if n ≤ 3 then 30 else if n ≤ 10 then 60
      else if n ≤ 20 then 85 else 100 := by
    unfold RiskScorer.calculateSpamScore
    rw [hn]
    rfl
  have e2 : RiskScorer.calculateSpamScore r' =
      if m = 0 then 0 else if m ≤ 3 then 30 else if m ≤ 10 then 60
      else if m ≤ 20 then 85 else 100 := by
    unfold RiskScorer.calculateSpamScore
    rw [hm]
    rfl
  refine ⟨fun h => ?_, fun h => ?_, fun h => ?_, fun h => ?_, fun h => ?_, fun h => ?_⟩
  · rw [e1]
    split_ifs <;> first | rfl | (exfalso; omega)
  · rw [e1]
    split_ifs <;> first | rfl | (exfalso; omega)
  · rw [e1]
    split_ifs <;> first | rfl | (exfalso; omega)
  · rw [e1]
    split_ifs <;> first | rfl | (exfalso; omega)
  · rw [e1]
    split_ifs <;> first | rfl | (exfalso; omega)
  · rw [e1, e2]
    split_ifs <;> first | (exfalso; omega) | norm_num

/-- Witness for C3 at counts 4 and 21. -/
theorem spam_score_bands_witness :
    RiskScorer.calculateSpamScore
      { phone_number := "+15550000000", spam_reports_count := some 4 } = 60
    ∧ RiskScorer.calculateSpamScore
      { phone_number := "+15550000000", spam_reports_count := some 21 } = 100 :=
  ⟨(spam_score_bands { phone_number := "+15550000000", spam_reports_count := some 4 }
      { phone_number := "+15550000000", spam_reports_count := some 21 } 4 21
      rfl rfl (by norm_num)).2.2.1 ⟨by norm_num, by norm_num⟩,
   (spam_score_bands { phone_number := "+15550000000", spam_reports_count := some 21 }
      { phone_number := "+15550000000", spam_reports_count := some 21 } 21 21
      rfl rfl (by norm_num)).2.2.2.2.1 (by norm_num)⟩

/-- C4: `get_factor_contribution` is a pure function of the factor's
severity and weight alone: the severity base score (CRITICAL=100,
HIGH=80, MEDIUM=50, LOW=25) times the factor's weight, rounded to 2
decimals, independent of the scorer's working result, of the other
factors and of the composite; the final stamping maps it over the
factor list positionally. -/
theorem factor_contribution_pure (res res' : Results) (f : Factor) (sev : String) (w : ℚ)
    (hsev : f.severity = some sev) (hw : f.weight = some w) :
    RiskScorer.getFactorContribution res f = RiskScorer.getFactorContribution res' f
    ∧ RiskScorer.getFactorContribution res f = round2 (RiskScorer.severityScores sev * w)
    ∧ RiskScorer.severityScores "CRITICAL" = 100
    ∧ RiskScorer.severityScores "HIGH" = 80
    ∧ RiskScorer.severityScores "MEDIUM" = 50
    ∧ RiskScorer.severityScores "LOW" = 25
    ∧ (∀ r : Results, (PhoneAnalyzer.calculateRisk r).risk_factors
        = r.risk_factors.map (fun factor =>
            { factor with
              score_contribution := some (RiskScorer.getFactorContribution r factor) })) := by
  refine ⟨rfl, ?_, RiskScorer.severity_CRITICAL_eq, RiskScorer.severity_HIGH_eq,
    RiskScorer.severity_MEDIUM_eq, RiskScorer.severity_LOW_eq, fun r => rfl⟩
  unfold RiskScorer.getFactorContribution
  rw [hsev, hw]
  rfl

/-- Witness for C4: the VOIP factor (MEDIUM, weight 0.15) contributes
50 x 0.15 = 7.5. -/
theorem factor_contribution_pure_witness :
    RiskScorer.getFactorContribution (PhoneAnalyzer.initResults "+15550000000")
      PhoneAnalyzer.voipFactor = 15/2 := by
  have h := (factor_contribution_pure (PhoneAnalyzer.initResults "+15550000000")
    (PhoneAnalyzer.initResults "+15550000000") PhoneAnalyzer.voipFactor
    "MEDIUM" (15/100) rfl rfl).2.1
  rw [h, RiskScorer.severity_MEDIUM_eq]
  unfold round2 roundHalfEven
  simp only [ratFloor_eq_floor]
  norm_num
/-- A sample provider environment for instantiating theorems at concrete
inputs: a parsed US number with every provider returning its real
no-data payload (no API keys configured). -/
def sampleEnv : Env :=
  { basic := .ok { country_code := 1, carrier := "", line_type := 1,
                   location := "", timezones := ["America/New_York"] },
    ipqs := .ok IPQualityScoreChecker.noKeyPayload,
    numverify := .ok NumverifyValidator.noKeyPayload,
    social := .ok SocialMediaScanner.scanResult,
    spam := .ok SpamDatabaseChecker.noKeyResult,
    fraud := .ok FraudForumScanner.noKeyResult,
    telegram := .ok TelegramScanner.scanResult,
    whatsapp := .ok WhatsAppChecker.checkResult }

/-- C9: the scorer is total and each missing evidence category falls to
its no-signal branch: social 0 without an anomaly flag, spam 0, fraud 0,
account age 30 without accounts, geographic 20 for Unknown location; the
average-age division only arises for a non-empty account list (positive
denominator), and with no signals at all the composite is 5.0, MINIMAL. -/
theorem scorer_no_signal_defaults :
    (∀ r : Results, RiskScorer.anomalyDetectedOf r = false →
        RiskScorer.calculateSocialMediaScore r = 0)
    ∧ (∀ r : Results, r.spam_reports_count = none →
        RiskScorer.calculateSpamScore r = 0)
    ∧ (∀ r : Results, r.fraud_mentions_count = none →
        RiskScorer.calculateFraudScore r = 0)
    ∧ (∀ r : Results, RiskScorer.socialAccountsOf r = [] →
        RiskScorer.calculateAccountAgeScore r = 30)
    ∧ (∀ r : Results, r.location.getD "Unknown" = "Unknown" →
        RiskScorer.calculateGeographicScore r = 20)
    ∧ (∀ r : Results, RiskScorer.socialAccountsOf r ≠ [] →
        (0 : ℚ) < (((RiskScorer.socialAccountsOf r).map
            (fun acc => acc.account_age_days.getD 0)).length : ℚ))
    ∧ (∀ r : Results, RiskScorer.anomalyDetectedOf r = false →
        r.spam_reports_count = none → r.fraud_mentions_count = none →
        RiskScorer.socialAccountsOf r = [] →
        r.location.getD "Unknown" = "Unknown" →
        RiskScorer.calculate r = (5, "MINIMAL")) := by
  have hsoc : ∀ r : Results, RiskScorer.anomalyDetectedOf r = false →
      RiskScorer.calculateSocialMediaScore r = 0 := by
    intro r h
    unfold RiskScorer.calculateSocialMediaScore
    rw [h]
    norm_num
  have hspam : ∀ r : Results, r.spam_reports_count = none →
      RiskScorer.calculateSpamScore r = 0 := by
    intro r h
    unfold RiskScorer.calculateSpamScore
    rw [h]
    rfl
  have hfraud : ∀ r : Results, r.fraud_mentions_count = none →
      RiskScorer.calculateFraudScore r = 0 := by
    intro r h
    unfold RiskScorer.calculateFraudScore
    rw [h]
    rfl
  have hage : ∀ r : Results, RiskScorer.socialAccountsOf r = [] →
      RiskScorer.calculateAccountAgeScore r = 30 := by
    intro r h
    unfold RiskScorer.calculateAccountAgeScore
    rw [h]
    rfl
  have hgeo : ∀ r : Results, r.location.getD "Unknown" = "Unknown" →
      RiskScorer.calculateGeographicScore r = 20 := by
    intro r h
    unfold RiskScorer.calculateGeographicScore
    rw [h]
    rfl
  refine ⟨hsoc, hspam, hfraud, hage, hgeo, ?_, ?_⟩
  · intro r h
    have : 0 < (RiskScorer.socialAccountsOf r).length := List.length_pos.mpr h
    simp only [List.length_map]
    exact_mod_cast this
  · intro r h1 h2 h3 h4 h5
    have hc : RiskScorer.calculate r =
        (round2 (min 100 (max 0
          (RiskScorer.calculateSocialMediaScore r * RiskScorer.weight "social_media_anomalies"
           + RiskScorer.calculateSpamScore r * RiskScorer.weight "spam_reports"
           + RiskScorer.calculateFraudScore r * RiskScorer.weight "fraud_forum_mentions"
           + RiskScorer.calculateAccountAgeScore r * RiskScorer.weight "account_age"
           + RiskScorer.calculateGeographicScore r * RiskScorer.weight "geographic_anomalies"))),
         RiskScorer.determineRiskLevel (min 100 (max 0
          (RiskScorer.calculateSocialMediaScore r * RiskScorer.weight "social_media_anomalies"
           + RiskScorer.calculateSpamScore r * RiskScorer.weight "spam_reports"
           + RiskScorer.calculateFraudScore r * RiskScorer.weight "fraud_forum_mentions"
           + RiskScorer.calculateAccountAgeScore r * RiskScorer.weight "account_age"
           + RiskScorer.calculateGeographicScore r * RiskScorer.weight "geographic_anomalies")))) := rfl
    rw [hc, hsoc r h1, hspam r h2, hfraud r h3, hage r h4, hgeo r h5,
      RiskScorer.weight_social_eq, RiskScorer.weight_spam_eq,
      RiskScorer.weight_fraud_eq, RiskScorer.weight_age_eq, RiskScorer.weight_geo_eq]
    have harith : min (100 : ℚ) (max 0
        (0 * (30/100) + 0 * (25/100) + 0 * (25/100) + 30 * (10/100) + 20 * (10/100))) = 5 := by
      norm_num
    rw [harith]
    have hr5 : round2 5 = 5 := by
      unfold round2 roundHalfEven
      simp only [ratFloor_eq_floor]
      norm_num
    have hl5 : RiskScorer.determineRiskLevel 5 = "MINIMAL" := by
      unfold RiskScorer.determineRiskLevel
      norm_num
    rw [hr5, hl5]

/-- Witness for C9 on the analyzer's freshly initialized results dict. -/
theorem scorer_no_signal_defaults_witness :
    RiskScorer.calculate (PhoneAnalyzer.initResults "+15550000000") = (5, "MINIMAL") :=
  scorer_no_signal_defaults.2.2.2.2.2.2
    (PhoneAnalyzer.initResults "+15550000000") rfl rfl rfl rfl rfl

/-- C10: an account record lacking `account_age_days` is read as age 0
by the account-age sub-scorer but as age 999 (not recent) by the
social-media recent-account filter; a single such account yields
account-age sub-score 90 while counting zero recent accounts. -/
theorem missing_age_default_inconsistency (r : Results) (s : SocialResults)
    (acc : SocialAccount)
    (hacc : acc.account_age_days = none)
    (hp : r.social_media_presence = some s)
    (ha : s.accounts_found = some [acc]) :
    acc.account_age_days.getD 0 = 0
    ∧ ¬ (acc.account_age_days.getD 999 < 30)
    ∧ RiskScorer.calculateAccountAgeScore r = 90
    ∧ ((RiskScorer.socialAccountsOf r).filter
        (fun a => decide (a.account_age_days.getD 999 < 30))).length = 0 := by
  have hs : RiskScorer.socialAccountsOf r = [acc] := by
    simp [RiskScorer.socialAccountsOf, hp, ha]
  refine ⟨by rw [hacc]; rfl, by rw [hacc]; exact not_lt.mpr (by norm_num), ?_, ?_⟩
  · unfold RiskScorer.calculateAccountAgeScore
    rw [hs]
    simp [hacc]
  · rw [hs]
    norm_num [hacc]

/-- Witness for C10 on a results dict with one account lacking the age
attribute. -/
theorem missing_age_default_inconsistency_witness :
    RiskScorer.calculateAccountAgeScore
      { phone_number := "+15550000000",
        social_media_presence :=
          some { accounts_found := some [{ account_age_days := none }] } } = 90 :=
  (missing_age_default_inconsistency
    { phone_number := "+15550000000",
      social_media_presence :=
        some { accounts_found := some [{ account_age_days := none }] } }
    { accounts_found := some [{ account_age_days := none }] }
    { account_age_days := none } rfl rfl rfl).2.2.1

/-- C6: a second analyze call for the same number within 24 hours of a
stored prior result with deep_scan = false serves the stored row without
running the pipeline (the response does not depend on the provider
environment), while deep_scan = true always runs the full pipeline
regardless of any stored rows. -/
theorem freshness_cache (db : List StoredAnalysis) (phone_number : String)
    (now : ℚ) (a : StoredAnalysis) (env : Env)
    (hrec : db.find? (recentFilter phone_number now) = some a) :
    analyzePhone none db phone_number false now env = .cached a
    ∧ (∀ env' : Env, analyzePhone none db phone_number false now env
        = analyzePhone none db phone_number false now env')
    ∧ (∀ db' : List StoredAnalysis,
        analyzePhone none db' phone_number true now env
          = .fresh (PhoneAnalyzer.analyze env phone_number)) := by
  have hc : analyzePhone none db phone_number false now env = .cached a := by
    unfold analyzePhone
    rw [hrec]
    rfl
  refine ⟨hc, ?_, ?_⟩
  · intro env'
    rw [hc]
    unfold analyzePhone
    rw [hrec]
    rfl
  · intro db'
    unfold analyzePhone
    cases hf : db'.find? (recentFilter phone_number now) <;> simp [hf]

/-- Witness for C6: a row stored 2 hours ago is served as-is. -/
theorem freshness_cache_witness :
    analyzePhone none
      [{ phone_number := "+15550000000", analysis_date := 10,
         analysis := PhoneAnalyzer.initResults "+15550000000" }]
      "+15550000000" false 12 sampleEnv
    = .cached { phone_number := "+15550000000", analysis_date := 10,
                analysis := PhoneAnalyzer.initResults "+15550000000" } :=
  (freshness_cache _ _ _ _ sampleEnv (by norm_num [List.find?, recentFilter])).1
lemma richMetadata_step_fields (env : Env) (r : Results) :
    (PhoneAnalyzer.getRichMetadata env r).country_code = r.country_code
    ∧ (PhoneAnalyzer.getRichMetadata env r).carrier = r.carrier
    ∧ (PhoneAnalyzer.getRichMetadata env r).line_type = r.line_type
    ∧ (PhoneAnalyzer.getRichMetadata env r).location = r.location
    ∧ (PhoneAnalyzer.getRichMetadata env r).timezones = r.timezones
    ∧ (PhoneAnalyzer.getRichMetadata env r).spam_check_error = r.spam_check_error
    ∧ (PhoneAnalyzer.getRichMetadata env r).spam_reports_count = r.spam_reports_count := by
  cases h1 : env.ipqs with
  | error e => simp [PhoneAnalyzer.getRichMetadata, h1]
  | ok i =>
    cases h2 : env.numverify with
    | error e => simp [PhoneAnalyzer.getRichMetadata, h1, h2]
    | ok n => simp [PhoneAnalyzer.getRichMetadata, h1, h2]

lemma socialMedia_step_fields (env : Env) (r : Results) :
    (PhoneAnalyzer.checkSocialMedia env r).country_code = r.country_code
    ∧ (PhoneAnalyzer.checkSocialMedia env r).carrier = r.carrier
    ∧ (PhoneAnalyzer.checkSocialMedia env r).line_type = r.line_type
    ∧ (PhoneAnalyzer.checkSocialMedia env r).location = r.location
    ∧ (PhoneAnalyzer.checkSocialMedia env r).timezones = r.timezones
    ∧ (PhoneAnalyzer.checkSocialMedia env r).spam_check_error = r.spam_check_error
    ∧ (PhoneAnalyzer.checkSocialMedia env r).spam_reports_count = r.spam_reports_count := by
  cases h1 : env.social with
  | error e => simp [PhoneAnalyzer.checkSocialMedia, h1]
  | ok s => simp [PhoneAnalyzer.checkSocialMedia, h1]

lemma spam_step_error (env : Env) (r : Results) (msg : String)
    (h : env.spam = .error msg) :
    PhoneAnalyzer.checkSpamDatabases env r
      = { r with spam_check_error := some msg } := by
  simp [PhoneAnalyzer.checkSpamDatabases, h]

lemma fraud_step_fields (env : Env) (r : Results) :
    (PhoneAnalyzer.checkFraudForums env r).country_code = r.country_code
    ∧ (PhoneAnalyzer.checkFraudForums env r).carrier = r.carrier
    ∧ (PhoneAnalyzer.checkFraudForums env r).line_type = r.line_type
    ∧ (PhoneAnalyzer.checkFraudForums env r).location = r.location
    ∧ (PhoneAnalyzer.checkFraudForums env r).timezones = r.timezones
    ∧ (PhoneAnalyzer.checkFraudForums env r).spam_check_error = r.spam_check_error
    ∧ (PhoneAnalyzer.checkFraudForums env r).spam_reports_count = r.spam_reports_count := by
  cases h1 : env.fraud with
  | error e => simp [PhoneAnalyzer.checkFraudForums, h1]
  | ok f => simp [PhoneAnalyzer.checkFraudForums, h1]

lemma messaging_step_fields (env : Env) (r : Results) :
    (PhoneAnalyzer.checkMessagingApps env r).country_code = r.country_code
    ∧ (PhoneAnalyzer.checkMessagingApps env r).carrier = r.carrier
    ∧ (PhoneAnalyzer.checkMessagingApps env r).line_type = r.line_type
    ∧ (PhoneAnalyzer.checkMessagingApps env r).location = r.location
    ∧ (PhoneAnalyzer.checkMessagingApps env r).timezones = r.timezones
    ∧ (PhoneAnalyzer.checkMessagingApps env r).spam_check_error = r.spam_check_error
    ∧ (PhoneAnalyzer.checkMessagingApps env r).spam_reports_count = r.spam_reports_count := by
  cases h1 : env.telegram with
  | error e => simp [PhoneAnalyzer.checkMessagingApps, h1]
  | ok t =>
    cases h2 : env.whatsapp with
    | error e => simp [PhoneAnalyzer.checkMessagingApps, h1, h2]
    | ok w => simp [PhoneAnalyzer.checkMessagingApps, h1, h2]

lemma basic_step_ok (env : Env) (r : Results) (parsed : ParsedNumber)
    (h : env.basic = .ok parsed) :
    PhoneAnalyzer.getBasicInfo env r
      = { r with
          country_code := some ("+" ++ toString parsed.country_code),
          carrier := some (if parsed.carrier = "" then "Unknown" else parsed.carrier),
          line_type := some parsed.line_type,
          location := some (if parsed.location = "" then "Unknown" else parsed.location),
          timezones := some parsed.timezones,
          data_sources_used := r.data_sources_used ++ ["phonenumbers_library"] } := by
  simp [PhoneAnalyzer.getBasicInfo, h]

/-- C5: if the spam-report provider raises during step 4, the pipeline
continues: the final result keeps the basic phone identity fields from
step 1, records the exception under `spam_check_error`, leaves
`spam_reports_count` unset (so every read defaults it to 0), and still
carries a risk score and risk level. -/
theorem spam_failure_isolation (env : Env) (phone_number : String)
    (parsed : ParsedNumber) (msg : String)
    (hb : env.basic = .ok parsed) (hs : env.spam = .error msg) :
    (PhoneAnalyzer.analyze env phone_number).spam_check_error = some msg
    ∧ (PhoneAnalyzer.analyze env phone_number).spam_reports_count = none
    ∧ (PhoneAnalyzer.analyze env phone_number).spam_reports_count.getD 0 = 0
    ∧ (PhoneAnalyzer.analyze env phone_number).country_code
        = some ("+" ++ toString parsed.country_code)
    ∧ (PhoneAnalyzer.analyze env phone_number).carrier
        = some (if parsed.carrier = "" then "Unknown" else parsed.carrier)
    ∧ (PhoneAnalyzer.analyze env phone_number).line_type = some parsed.line_type
    ∧ (PhoneAnalyzer.analyze env phone_number).location
        = some (if parsed.location = "" then "Unknown" else parsed.location)
    ∧ (PhoneAnalyzer.analyze env phone_number).timezones = some parsed.timezones
    ∧ (PhoneAnalyzer.analyze env phone_number).risk_score.isSome = true
    ∧ (PhoneAnalyzer.analyze env phone_number).risk_level.isSome = true := by
  have h1 := basic_step_ok env (PhoneAnalyzer.initResults phone_number) parsed hb
  set r1 := PhoneAnalyzer.getBasicInfo env (PhoneAnalyzer.initResults phone_number) with hr1
  set r2 := PhoneAnalyzer.getRichMetadata env r1 with hr2
  set r3 := PhoneAnalyzer.checkSocialMedia env r2 with hr3
  set r4 := PhoneAnalyzer.checkSpamDatabases env r3 with hr4
  set r5 := PhoneAnalyzer.checkFraudForums env r4 with hr5
  set r6 := PhoneAnalyzer.checkMessagingApps env r5 with hr6
  have hana : PhoneAnalyzer.analyze env phone_number = PhoneAnalyzer.calculateRisk r6 := rfl
  obtain ⟨g1, g2, g3, g4, g5, g6, g7⟩ := richMetadata_step_fields env r1
  obtain ⟨s1, s2, s3, s4, s5, s6, s7⟩ := socialMedia_step_fields env r2
  have h4 := spam_step_error env r3 msg hs
  obtain ⟨f1, f2, f3, f4, f5, f6, f7⟩ := fraud_step_fields env r4
  obtain ⟨m1, m2, m3, m4, m5, m6, m7⟩ := messaging_step_fields env r5
  have hsce : (PhoneAnalyzer.calculateRisk r6).spam_check_error = some msg := by
    show r6.spam_check_error = some msg
    rw [m6, hr5, f6, hr4, h4]
  have hsrc : (PhoneAnalyzer.calculateRisk r6).spam_reports_count = none := by
    show r6.spam_reports_count = none
    rw [m7, hr5, f7, hr4, h4]
    show r3.spam_reports_count = none
    rw [s7, hr2, g7, h1]
    rfl
  refine ⟨by rw [hana]; exact hsce, by rw [hana]; exact hsrc,
    by rw [hana, hsrc]; rfl, ?_, ?_, ?_, ?_, ?_, by rw [hana]; rfl, by rw [hana]; rfl⟩
  · rw [hana]
    show r6.country_code = _
    rw [m1, hr5, f1, hr4, h4]
    show r3.country_code = _
    rw [s1, hr2, g1, h1]
  · rw [hana]
    show r6.carrier = _
    rw [m2, hr5, f2, hr4, h4]
    show r3.carrier = _
    rw [s2, hr2, g2, h1]
  · rw [hana]
    show r6.line_type = _
    rw [m3, hr5, f3, hr4, h4]
    show r3.line_type = _
    rw [s3, hr2, g3, h1]
  · rw [hana]
    show r6.location = _
    rw [m4, hr5, f4, hr4, h4]
    show r3.location = _
    rw [s4, hr2, g4, h1]
  · rw [hana]
    show r6.timezones = _
    rw [m5, hr5, f5, hr4, h4]
    show r3.timezones = _
    rw [s5, hr2, g5, h1]

/-- Witness for C5: the sample environment with a spam-step timeout. -/
theorem spam_failure_isolation_witness :
    (PhoneAnalyzer.analyze { sampleEnv with spam := .error "timed out" }
        "+15550000000").spam_check_error = some "timed out"
    ∧ (PhoneAnalyzer.analyze { sampleEnv with spam := .error "timed out" }
        "+15550000000").spam_reports_count.getD 0 = 0
    ∧ (PhoneAnalyzer.analyze { sampleEnv with spam := .error "timed out" }
        "+15550000000").country_code = some "+1" := by
  have h := spam_failure_isolation { sampleEnv with spam := .error "timed out" }
    "+15550000000"
    { country_code := 1, carrier := "", line_type := 1,
      location := "", timezones := ["America/New_York"] }
    "timed out" rfl rfl
  exact ⟨h.1, h.2.2.1, h.2.2.2.1⟩
/-- C7 (amended): step 2 appends both "IPQualityScore" and "Numverify"
to `data_sources_used` whenever both provider calls return without
raising — even when a payload is only an error marker with no usable
data — and appends neither when either call raises. -/
theorem data_sources_step2_behavior (env : Env) (r : Results) :
    (∀ i n, env.ipqs = .ok i → env.numverify = .ok n →
      (PhoneAnalyzer.getRichMetadata env r).data_sources_used
        = r.data_sources_used ++ ["IPQualityScore", "Numverify"])
    ∧ (∀ e, env.ipqs = .error e →
      (PhoneAnalyzer.getRichMetadata env r).data_sources_used
        = r.data_sources_used)
    ∧ (∀ i e, env.ipqs = .ok i → env.numverify = .error e →
      (PhoneAnalyzer.getRichMetadata env r).data_sources_used
        = r.data_sources_used) := by
  refine ⟨fun i n hi hn => ?_, fun e he => ?_, fun i e hi he => ?_⟩
  · simp [PhoneAnalyzer.getRichMetadata, hi, hn]
  · simp [PhoneAnalyzer.getRichMetadata, he]
  · simp [PhoneAnalyzer.getRichMetadata, hi, he]

/-- Witness for the amended C7 on the sample (no API keys) environment. -/
theorem data_sources_step2_behavior_witness :
    (PhoneAnalyzer.getRichMetadata sampleEnv
        (PhoneAnalyzer.initResults "+15550000000")).data_sources_used
      = ["IPQualityScore", "Numverify"] := by
  have h := (data_sources_step2_behavior sampleEnv
      (PhoneAnalyzer.initResults "+15550000000")).1
    IPQualityScoreChecker.noKeyPayload NumverifyValidator.noKeyPayload rfl rfl
  simpa using h

/-- Counterexample to C7 as stated: with no API keys configured the
validity provider returns only an error payload carrying no usable
phone evidence, yet the completed analysis still lists "Numverify"
among its data sources. -/
theorem data_sources_usable_counterexample :
    "Numverify" ∈ (PhoneAnalyzer.analyze sampleEnv "+15550000000").data_sources_used
    ∧ sampleEnv.numverify = .ok NumverifyValidator.noKeyPayload
    ∧ ¬ NumverifyValidator.noKeyPayload.returnedUsableEvidence := by
  refine ⟨by decide, rfl, ?_⟩
  intro h
  simp [NumverifyValidator.noKeyPayload, NumverifyData.returnedUsableEvidence] at h

/-- C8: in the rich-metadata merge the fraud-score provider's non-empty
carrier wins as `current_carrier` over the validity provider's; when it
also reports VOIP and the two providers disagree on a non-Unknown
carrier, the merged metadata flags porting with the two-entry history,
and both the VOIP factor (MEDIUM, weight 0.15) and the porting-detected
factor (LOW, weight 0.10) are appended to the risk factors. -/
theorem rich_metadata_merge_precedence (env : Env) (r : Results)
    (i : IpqsData) (n : NumverifyData) (ca cb : String)
    (hi : env.ipqs = .ok i) (hn : env.numverify = .ok n)
    (hvoip : i.VOIP = some true)
    (hib : i.carrier = some cb) (hna : n.carrier = some ca)
    (hb0 : cb ≠ "") (hbU : cb ≠ "Unknown") (haU : ca ≠ "Unknown")
    (hab : cb ≠ ca) :
    (∃ rm : RichMetadata,
      (PhoneAnalyzer.getRichMetadata env r).rich_metadata = some rm
      ∧ rm.carrier_details.current_carrier = cb
      ∧ rm.carrier_details.original_carrier = ca
      ∧ rm.carrier_details.porting_detected = true
      ∧ rm.carrier_details.porting_history
          = some [(ca, "Original"), (cb, "Current")])
    ∧ PhoneAnalyzer.voipFactor ∈ (PhoneAnalyzer.getRichMetadata env r).risk_factors
    ∧ PhoneAnalyzer.portingFactor [(ca, "Original"), (cb, "Current")]
        ∈ (PhoneAnalyzer.getRichMetadata env r).risk_factors
    ∧ PhoneAnalyzer.voipFactor.severity = some "MEDIUM"
    ∧ PhoneAnalyzer.voipFactor.weight = some (15/100)
    ∧ (PhoneAnalyzer.portingFactor [(ca, "Original"), (cb, "Current")]).severity
        = some "LOW"
    ∧ (PhoneAnalyzer.portingFactor [(ca, "Original"), (cb, "Current")]).weight
        = some (10/100) := by
  have horig : n.carrier.getD "Unknown" = ca := by
    rw [hna]
    rfl
  have hcur2 : pyOrStr i.carrier ca = cb := by
    rw [hib]
    simp [pyOrStr, hb0]
  have hdec : decide (¬pyOrStr i.carrier ca = "Unknown" ∧ ¬ca = "Unknown"
      ∧ ¬pyOrStr i.carrier ca = ca) = true := by
    rw [hcur2]
    exact decide_eq_true ⟨hbU, haU, hab⟩
  simp only [PhoneAnalyzer.getRichMetadata, hi, hn, hvoip]
  rw [horig, hdec]
  simp only [Option.getD_some, if_true, hcur2]
  refine ⟨⟨_, rfl, rfl, rfl, rfl, rfl⟩, ?_, ?_, rfl, rfl, rfl, rfl⟩
  · simp
  · simp

/-- The C8 scenario environment: fraud provider reports VOIP with
carrier CarrierB, validity provider reports CarrierA. -/
def portingSampleEnv : Env :=
  { sampleEnv with
    ipqs := .ok { VOIP := some true, carrier := some "CarrierB",
                  fraud_score := some 80, recent_abuse := some true },
    numverify := .ok { valid := some true, carrier := some "CarrierA" } }

/-- Witness for C8 on the CarrierA / CarrierB scenario. -/
theorem rich_metadata_merge_precedence_witness :
    PhoneAnalyzer.voipFactor ∈ (PhoneAnalyzer.getRichMetadata portingSampleEnv
        (PhoneAnalyzer.initResults "+15550000000")).risk_factors
    ∧ PhoneAnalyzer.portingFactor [("CarrierA", "Original"), ("CarrierB", "Current")]
        ∈ (PhoneAnalyzer.getRichMetadata portingSampleEnv
            (PhoneAnalyzer.initResults "+15550000000")).risk_factors := by
  have h := rich_metadata_merge_precedence portingSampleEnv
    (PhoneAnalyzer.initResults "+15550000000")
    { VOIP := some true, carrier := some "CarrierB",
      fraud_score := some 80, recent_abuse := some true }
    { valid := some true, carrier := some "CarrierA" }
    "CarrierA" "CarrierB" rfl rfl rfl rfl rfl
    (by decide) (by decide) (by decide) (by decide)
  exact ⟨h.2.1, h.2.2.1⟩
